import Mathlib

/-!
Shallow embedding of the `watcher` repository (Rust sources under
`src/rust/src/`) together with theorems settling the frozen claims about
its natural-language specification.

Conventions of the embedding:
* Rust `String`/`PathBuf` become Lean `String` (paths are treated as
  opaque strings; no file system is modelled).
* Rust `Option<T>` becomes `Option T`, `bool` becomes `Bool`,
  `u32`/`u64` become `Nat` (with an explicit `2 ^ 64` bound where the
  Rust integer parser can reject an overflowing literal).
* Fallible operations return `Except String` or are modelled as pure
  decision functions over an explicit environment record that fixes the
  outcome of every external effect (git subprocesses, container runtime,
  HTTP, process table).  Side effects are reified as action traces.
* Strings are compared at character granularity; all inputs appearing in
  the claims are ASCII, where Rust byte indices and Lean character
  indices coincide.
-/

namespace Watcher

/-! ## Data model (src/rust/src/config.rs) -/

/-- `ServiceType` from config.rs: specialized handling tag. -/
inductive ServiceType where
  | nginx
  | apache
  | generic
  | custom (tag : String)
  deriving DecidableEq, Repr

/-- `Permissions` from config.rs: file-ownership policy of one service. -/
structure Permissions where
  fix : Bool
  user : String
  group : String
  deriving DecidableEq, Repr

/-- Minimal JSON value, enough for the `custom_settings` entries the
legacy conversion inserts (a string and a boolean). -/
inductive JsonValue where
  | str (s : String)
  | bool (b : Bool)
  deriving DecidableEq, Repr

/-- `ServiceConfig` from config.rs: one reconciled unit. -/
structure ServiceConfig where
  name : String
  container_name : String
  service_type : ServiceType
  repo_url : String
  branch : Option String
  local_path : String
  use_docker_compose : Bool
  docker_compose_file : Option String
  docker_compose_dir : Option String
  restart_command : Option String
  validation_command : Option String
  disable_restart : Bool
  healthcheck_url : Option String
  auto_fix : Option Bool
  monitor_logs : Option Bool
  log_tail_lines : Nat
  permissions : Option Permissions
  custom_settings : List (String × JsonValue)
  deriving DecidableEq, Repr

/-- `GlobalSettings` from config.rs: process-wide defaults. -/
structure GlobalSettings where
  watch_interval : Nat
  default_branch : String
  auto_fix : Bool
  fix_permissions : Bool
  monitor_logs : Bool
  disable_restart : Bool
  use_docker_compose : Bool
  default_compose_dir : Option String
  default_compose_file : Option String
  startup_grace_period : String
  deriving DecidableEq, Repr

/-- Top-level `Config` from config.rs. -/
structure Config where
  services : List ServiceConfig
  global_settings : GlobalSettings
  deriving DecidableEq, Repr

/-- `LegacyConfig` from config.rs: single-service environment mode. -/
structure LegacyConfig where
  repo_url : String
  branch : String
  watch_interval : Nat
  ssh_private_key : Option String
  nginx_container_name : String
  use_docker_compose : Bool
  compose_file : String
  compose_dir : String
  config_dir : String
  lockfile : String
  web_root : String
  verbose : Bool
  disable_restart : Bool
  healthcheck_url : Option String
  auto_fix : Bool
  monitor_logs : Bool
  log_tail_lines : Nat
  fix_permissions : Bool
  enable_dir_listing : Bool
  nginx_user : String
  nginx_group : String
  deriving DecidableEq, Repr

/-- `default_log_tail_lines` from config.rs. -/
def default_log_tail_lines : Nat := 100

/-- `default_startup_grace_period` from config.rs. -/
def default_startup_grace_period : String := "30s"

/-- `impl Default for GlobalSettings` from config.rs. -/
def GlobalSettings.default : GlobalSettings :=
  { watch_interval := 60
    default_branch := "main"
    auto_fix := false
    fix_permissions := true
    monitor_logs := true
    disable_restart := false
    use_docker_compose := false
    default_compose_dir := some "/app/config"
    default_compose_file := some "docker-compose.yml"
    startup_grace_period := default_startup_grace_period }

/-- `ServiceConfig::default_nginx` from config.rs. -/
def ServiceConfig.default_nginx : ServiceConfig :=
  { name := "nginx"
    container_name := "nginx_app"
    service_type := ServiceType.nginx
    repo_url := "https://github.com/nuniesmith/nginx.git"
    branch := some "main"
    local_path := "/app/config/nginx"
    use_docker_compose := false
    docker_compose_file := none
    docker_compose_dir := none
    restart_command := some "docker restart nginx_app"
    validation_command := some "docker exec -t nginx_app nginx -t"
    disable_restart := false
    healthcheck_url := none
    auto_fix := none
    monitor_logs := some true
    log_tail_lines := default_log_tail_lines
    permissions := some { fix := true, user := "nginx", group := "nginx" }
    custom_settings := [] }

/-- `impl Default for LegacyConfig` from config.rs. -/
def LegacyConfig.default : LegacyConfig :=
  { repo_url := "https://github.com/nuniesmith/nginx.git"
    branch := "main"
    watch_interval := 300
    ssh_private_key := none
    nginx_container_name := "nginx"
    use_docker_compose := true
    compose_file := "docker-compose.yml"
    compose_dir := "/app/config"
    config_dir := "/app/config"
    lockfile := "/var/run/nginx_config_watcher.lock"
    web_root := "/var/www/html"
    verbose := false
    disable_restart := false
    healthcheck_url := none
    auto_fix := false
    monitor_logs := true
    log_tail_lines := 100
    fix_permissions := true
    enable_dir_listing := false
    nginx_user := "nginx"
    nginx_group := "nginx" }

/-- `impl From<&LegacyConfig> for Config` from config.rs. -/
def Config.from_legacy (legacy : LegacyConfig) : Config :=
  let service : ServiceConfig :=
    { name := "nginx"
      container_name := legacy.nginx_container_name
      service_type := ServiceType.nginx
      repo_url := legacy.repo_url
      branch := some legacy.branch
      local_path := legacy.config_dir
      use_docker_compose := legacy.use_docker_compose
      docker_compose_file := some legacy.compose_file
      docker_compose_dir := some legacy.compose_dir
      restart_command := some ("docker restart " ++ legacy.nginx_container_name)
      validation_command :=
        some ("docker exec -t " ++ legacy.nginx_container_name ++ " nginx -t")
      disable_restart := legacy.disable_restart
      healthcheck_url := legacy.healthcheck_url
      auto_fix := some legacy.auto_fix
      monitor_logs := some legacy.monitor_logs
      log_tail_lines := legacy.log_tail_lines
      permissions :=
        some { fix := legacy.fix_permissions
               user := legacy.nginx_user
               group := legacy.nginx_group }
      custom_settings :=
        [("web_root", JsonValue.str legacy.web_root),
         ("enable_dir_listing", JsonValue.bool legacy.enable_dir_listing)] }
  let global : GlobalSettings :=
    { watch_interval := legacy.watch_interval
      default_branch := legacy.branch
      auto_fix := legacy.auto_fix
      fix_permissions := legacy.fix_permissions
      monitor_logs := legacy.monitor_logs
      disable_restart := legacy.disable_restart
      use_docker_compose := legacy.use_docker_compose
      default_compose_dir := some legacy.compose_dir
      default_compose_file := some legacy.compose_file
      startup_grace_period := "30s" }
  { global_settings := global, services := [service] }

/-- `ServiceConfig::effective_branch` from config.rs. -/
def ServiceConfig.effective_branch (s : ServiceConfig) (dflt : String) : String :=
  s.branch.getD dflt

/-- `ServiceConfig::effective_auto_fix` from config.rs. -/
def ServiceConfig.effective_auto_fix (s : ServiceConfig) (dflt : Bool) : Bool :=
  s.auto_fix.getD dflt

/-- `ServiceConfig::effective_monitor_logs` from config.rs. -/
def ServiceConfig.effective_monitor_logs (s : ServiceConfig) (dflt : Bool) : Bool :=
  s.monitor_logs.getD dflt

/-- `ServiceConfig::effective_fix_permissions` from config.rs:
`self.permissions.as_ref().map_or(default, |p| p.fix)`. -/
def ServiceConfig.effective_fix_permissions (s : ServiceConfig) (dflt : Bool) : Bool :=
  match s.permissions with
  | some p => p.fix
  | none => dflt

/-- `ServiceConfig::get_compose_dir` from config.rs. -/
def ServiceConfig.get_compose_dir (s : ServiceConfig)
    (default_dir : Option String) : Option String :=
  s.docker_compose_dir.orElse (fun _ => default_dir)

/-- `ServiceConfig::get_compose_file` from config.rs. -/
def ServiceConfig.get_compose_file (s : ServiceConfig)
    (default_file : Option String) : Option String :=
  s.docker_compose_file.orElse (fun _ => default_file)

/-- The restart gate of the update handlers (main.rs lines 235, 286, 330):
`!service.disable_restart && !global.disable_restart`.  The restart step
runs exactly when this is `true`. -/
def restart_enabled (s : ServiceConfig) (g : GlobalSettings) : Bool :=
  !s.disable_restart && !g.disable_restart

/-- Simplified nginx runtime config (`config.rs` module `nginx`). -/
structure NginxConfig where
  nginx_container_name : String
  compose_dir : String
  compose_file : String
  use_docker_compose : Bool
  disable_restart : Bool
  monitor_logs : Bool
  log_tail_lines : Nat
  force_rebuild : Option Bool
  deriving DecidableEq, Repr

/-- `Config::make_nginx_config` from config_helpers.rs. -/
def make_nginx_config (s : ServiceConfig) (g : GlobalSettings) :
    Except String NginxConfig :=
  if s.service_type ≠ ServiceType.nginx then
    Except.error "Service is not an Nginx service"
  else
    Except.ok
      { nginx_container_name := s.container_name
        compose_dir := (s.get_compose_dir g.default_compose_dir).getD "."
        compose_file := (s.get_compose_file g.default_compose_file).getD
          "docker-compose.yml"
        use_docker_compose := s.use_docker_compose || g.use_docker_compose
        disable_restart := s.disable_restart || g.disable_restart
        monitor_logs := s.effective_monitor_logs g.monitor_logs
        log_tail_lines := s.log_tail_lines
        force_rebuild := none }

/-! ## Configuration loading (src/rust/src/config.rs, `Config::load`) -/

/-- The post-parse normalization step of `Config::load_from_json`
(config.rs lines 374-382): an empty `services` array gets the built-in
default nginx service appended; otherwise the parsed config is returned
unchanged.  Reading and JSON-parsing the file are outside the model; the
argument is the successfully parsed document. -/
def Config.load_from_json_post (c : Config) : Config :=
  if c.services.isEmpty then
    { c with services := c.services ++ [ServiceConfig.default_nginx] }
  else
    c

/-- The two ways `Config::load` can successfully produce a configuration:
a parsed JSON document (then normalized), or the legacy environment
fallback converted via `From<&LegacyConfig>`. -/
inductive LoadSource where
  | json (parsed : Config)
  | legacy (env : LegacyConfig)

/-- Result of `Config::load` on a successful load (config.rs lines
346-364): the JSON branch returns `load_from_json`, the fallback branch
returns `Config::from(&legacy)`. -/
def Config.load_result : LoadSource → Config
  | LoadSource.json parsed => Config.load_from_json_post parsed
  | LoadSource.legacy env => Config.from_legacy env

/-! ## Duration parsing (src/rust/src/main.rs and src/rust/src/utils.rs) -/

/-- Decimal value of a digit run (most significant first). -/
def digits_value (cs : List Char) : Nat :=
  cs.foldl (fun acc c => acc * 10 + (c.toNat - 48)) 0

/-- Rust `str::parse::<u64>()` on an ASCII character list: an optional
leading `+` sign, then at least one decimal digit, value below
`2 ^ 64`. -/
def parseU64_chars (cs : List Char) : Option Nat :=
  let body := match cs with
    | '+' :: rest => rest
    | other => other
  if body ≠ [] ∧ body.all Char.isDigit then
    let v := digits_value body
    if v < 2 ^ 64 then some v else none
  else none

/-- `parse_duration` from main.rs (lines 342-359), returning the number
of seconds: the input must be at least two characters, everything
before the final character must parse as an unsigned integer, and the
final character must be one of `s`, `m`, `h`, `d`.  Modelled at
character granularity (the source splits at the final byte; inputs are
ASCII). -/
def parse_duration_main (s : String) : Option Nat :=
  let cs := s.toList
  if cs.length < 2 then none
  else
    let value_chars := cs.take (cs.length - 1)
    let unit := cs.drop (cs.length - 1)
    match parseU64_chars value_chars with
    | none => none
    | some v =>
      if unit = ['s'] then some v
      else if unit = ['m'] then some (v * 60)
      else if unit = ['h'] then some (v * 3600)
      else if unit = ['d'] then some (v * 86400)
      else none

/-- Whitespace trim from both ends, as Rust `str::trim`. -/
def trim_chars (cs : List Char) : List Char :=
  (((cs.dropWhile Char.isWhitespace).reverse.dropWhile
    Char.isWhitespace).reverse)

/-- `parse_duration` from utils.rs (lines 419-448), returning seconds:
trim, take the leading digit run as the value, lowercase the remainder
as the unit; an empty unit means seconds. -/
def parse_duration_utils (s : String) : Option Nat :=
  let t := trim_chars s.toList
  let numeric := t.takeWhile Char.isDigit
  if numeric = [] then none
  else
    match parseU64_chars numeric with
    | none => none
    | some v =>
      let unit := (t.dropWhile Char.isDigit).map Char.toLower
      if unit = ['s'] then some v
      else if unit = ['m'] then some (v * 60)
      else if unit = ['h'] then some (v * 3600)
      else if unit = ['d'] then some (v * 86400)
      else if unit = [] then some v
      else none

/-- The startup grace period the monitoring loop actually waits
(main.rs lines 131-132): `parse_duration(&global.startup_grace_period)
.unwrap_or_else(|_| Duration::from_secs(30))`.  The parser used is the
local `parse_duration` of main.rs, and a parse failure silently falls
back to 30 seconds. -/
def grace_period_secs (g : GlobalSettings) : Nat :=
  (parse_duration_main g.startup_grace_period).getD 30

/-- Whether `pat` is a prefix of `s`, on character lists. -/
def list_starts_with : List Char → List Char → Bool
  | _, [] => true
  | [], _ :: _ => false
  | a :: as, b :: bs => a = b && list_starts_with as bs

/-- Whether `pat` occurs as a contiguous sublist of `s`. -/
def list_contains_sub (pat : List Char) : List Char → Bool
  | [] => pat.isEmpty
  | c :: tl => list_starts_with (c :: tl) pat || list_contains_sub pat tl

/-- Substring containment, as Rust `str::contains` with a string
pattern. -/
def contains_substr (s pat : String) : Bool :=
  list_contains_sub pat.toList s.toList

/-! ## Healthcheck notifiers (src/rust/src/logger.rs and utils.rs) -/

/-- An HTTP request as the notifiers would issue it. -/
structure HttpRequest where
  method : String
  url : String
  body : Option String
  timeout_secs : Nat
  deriving DecidableEq, Repr

/-- Outcome of a notifier call: no-op success, a request to send, or an
immediate error before any request is attempted. -/
inductive NotifyOutcome where
  | noop
  | request (r : HttpRequest)
  | invalidUrl
  deriving DecidableEq, Repr

/-- `notify_healthcheck` from logger.rs (lines 179-199): empty URL is a
no-op; otherwise POST `message` as the body to `url` (or `url ++
"/fail"` when `is_error`) with a 10-second timeout. -/
def logger_notify_healthcheck (url message : String)
    (is_error : Bool) : NotifyOutcome :=
  if url = "" then NotifyOutcome.noop
  else
    NotifyOutcome.request
      { method := "POST"
        url := if is_error then url ++ "/fail" else url
        body := some message
        timeout_secs := 10 }

/-- One hexadecimal digit (uppercase), for percent-encoding. -/
def hexDigit (n : Nat) : Char :=
  if n < 10 then Char.ofNat (48 + n) else Char.ofNat (55 + n)

/-- ASCII fragment of `urlencoding::encode`: unreserved characters
(alphanumeric and `-` `_` `.` `~`) pass through, every other character
is percent-encoded from its code point (which equals its UTF-8 byte for
ASCII input). -/
def urlencode (s : String) : String :=
  String.mk ((s.toList.map (fun c =>
    if c.isAlphanum || c = '-' || c = '_' || c = '.' || c = '~' then
      [c]
    else
      ['%', hexDigit (c.toNat / 16), hexDigit (c.toNat % 16)])).flatten)

/-- Whether `Url::parse` accepts the string.  The only fact the model
relies on is that the empty string is rejected (it has no scheme); for
the counterexamples a URL is considered valid when it starts with
`http://` followed by a nonempty host. -/
def url_parse_ok (url : String) : Bool :=
  list_starts_with url.toList "http://".toList && url.toList.length > 7

/-- `notify_healthcheck` from utils.rs (lines 381-412): first validate
the URL with `Url::parse` (an error for the empty string), then send a
GET request whose query string carries the message
(`?status=fail&msg=...` on error, `?msg=...` otherwise), with a
5-second timeout and no body. -/
def utils_notify_healthcheck (url message : String)
    (is_error : Bool) : NotifyOutcome :=
  if ¬ url_parse_ok url then NotifyOutcome.invalidUrl
  else
    NotifyOutcome.request
      { method := "GET"
        url :=
          if is_error then
            url ++ "?status=fail&msg=" ++ urlencode message
          else
            url ++ "?msg=" ++ urlencode message
        body := none
        timeout_secs := 5 }

/-- The notifier behavior the specification describes (section 4.7 /
claim C7), stated from the words of the spec: empty URL is a no-op;
otherwise POST the message as the body to the URL (with `/fail`
appended on error) under a 10-second timeout. -/
def spec_notify (url message : String) (is_error : Bool) : NotifyOutcome :=
  if url = "" then NotifyOutcome.noop
  else
    NotifyOutcome.request
      { method := "POST"
        url := if is_error then url ++ "/fail" else url
        body := some message
        timeout_secs := 10 }

/-! ## Container runtime and restart dispatch
(src/rust/src/service.rs, src/rust/src/docker_utils.rs) -/

/-- `ContainerStatus` from docker_utils.rs. -/
inductive ContainerStatus where
  | running
  | stopped
  | notExists
  deriving DecidableEq, Repr

/-- What `restart_service` (service.rs lines 52-120) resolves to do,
given the container status the runtime would report where the code
queries it. -/
inductive RestartPlan where
  /-- restart disabled by configuration: return Ok without acting -/
  | skip
  /-- `execute_custom_command cmd` via `sh -c` -/
  | custom (cmd : String)
  /-- `restart_container` on the named container (itself re-queries the
  status and fails when the container does not exist) -/
  | plainRestart (container : String)
  /-- `restart_with_docker_compose` -/
  | composeRestart
  /-- `recreate_with_docker_compose` -/
  | composeRecreate
  /-- the container-missing failure of `restart_web_service` -/
  | containerMissing (container : String)
  deriving DecidableEq, Repr

/-- `restart_web_service` from service.rs (lines 73-103), as the action
it selects.  A configured `restart_command` short-circuits before the
status query. -/
def restart_web_service_plan (s : ServiceConfig) (g : GlobalSettings)
    (status : ContainerStatus) : RestartPlan :=
  match s.restart_command with
  | some cmd => RestartPlan.custom cmd
  | none =>
    if s.use_docker_compose || g.use_docker_compose then
      match status with
      | ContainerStatus.running => RestartPlan.composeRestart
      | ContainerStatus.stopped => RestartPlan.composeRestart
      | ContainerStatus.notExists => RestartPlan.composeRecreate
    else
      match status with
      | ContainerStatus.running => RestartPlan.plainRestart s.container_name
      | ContainerStatus.stopped => RestartPlan.plainRestart s.container_name
      | ContainerStatus.notExists => RestartPlan.containerMissing s.container_name

/-- `restart_generic_service` from service.rs (lines 106-120), as the
action it selects. -/
def restart_generic_service_plan (s : ServiceConfig) (g : GlobalSettings)
    (status : ContainerStatus) : RestartPlan :=
  match s.restart_command with
  | some cmd => RestartPlan.custom cmd
  | none =>
    if s.use_docker_compose || g.use_docker_compose then
      match status with
      | ContainerStatus.running => RestartPlan.composeRestart
      | ContainerStatus.stopped => RestartPlan.composeRestart
      | ContainerStatus.notExists => RestartPlan.composeRecreate
    else
      RestartPlan.plainRestart s.container_name

/-- `restart_service` from service.rs (lines 52-70), as the action it
selects: skip when either disable flag is set, then dispatch on the
service type. -/
def restart_service_plan (s : ServiceConfig) (g : GlobalSettings)
    (status : ContainerStatus) : RestartPlan :=
  if s.disable_restart || g.disable_restart then RestartPlan.skip
  else
    match s.service_type with
    | ServiceType.nginx => restart_web_service_plan s g status
    | ServiceType.apache => restart_web_service_plan s g status
    | _ => restart_generic_service_plan s g status

/-- Whether `restart_service` executes `check_service_status` (a
container-status query) anywhere on its path, following service.rs:
`restart_web_service` queries unconditionally once the custom-command
branch is not taken; `restart_generic_service` queries only on its
compose branch; `restart_container` (the plain branch of the generic
path) queries internally (docker_utils.rs line 51). -/
def restart_service_queries_status (s : ServiceConfig)
    (g : GlobalSettings) : Bool :=
  if s.disable_restart || g.disable_restart then false
  else
    match s.service_type with
    | ServiceType.nginx | ServiceType.apache =>
      match s.restart_command with
      | some _ => false
      | none => true
    | _ =>
      match s.restart_command with
      | some _ => false
      | none => true

/-- `DEFAULT_COMMAND_TIMEOUT` from service.rs. -/
def DEFAULT_COMMAND_TIMEOUT : Nat := 60

/-- The subprocess invocation `execute_custom_command` performs
(service.rs lines 123-132): program, argument list, timeout seconds. -/
def custom_command_invocation (cmd : String) : String × List String × Nat :=
  ("sh", ["-c", cmd], DEFAULT_COMMAND_TIMEOUT)

/-! ## Supervisor startup and lockfile (src/rust/src/main.rs, utils.rs) -/

/-- Environment for lockfile handling: whether the lockfile exists,
what PID (if any) its contents parse to, whether that process is alive,
and whether writing the lockfile succeeds. -/
structure LockEnv where
  lockfile_exists : Bool
  recorded_pid : Option Nat
  pid_alive : Bool
  write_ok : Bool
  deriving DecidableEq, Repr

/-- Observable outcome of the lockfile step of `main` (main.rs lines
43-54). -/
structure StartupLockResult where
  /-- startup continues into service monitoring -/
  proceeded : Bool
  /-- process exit code forced by the lockfile step, if any -/
  exit_code : Option Nat
  /-- a warning was logged -/
  warned : Bool
  /-- the lockfile now holds the current PID -/
  lock_written : Bool
  deriving DecidableEq, Repr

/-- The lockfile step of `main` (main.rs lines 43-54): unconditionally
`File::create` the lockfile (truncating any existing one) and write the
current PID; on failure only log a warning.  No existing lockfile is
read, no PID liveness is checked, and startup always proceeds. -/
def main_startup_lock (env : LockEnv) : StartupLockResult :=
  { proceeded := true
    exit_code := none
    warned := !env.write_ok
    lock_written := env.write_ok }

/-- Result of `check_running_instance` from utils.rs (lines 17-41). -/
structure CheckInstanceResult where
  /-- `Ok(())` versus `Err(..)` -/
  ok : Bool
  /-- a stale lockfile was removed -/
  removed_stale : Bool
  /-- a fresh lockfile with the current PID was created -/
  created : Bool
  deriving DecidableEq, Repr

/-- `check_running_instance` from utils.rs (lines 17-41): if the
lockfile exists, parse its PID (parse failure is an error); if that
process is alive, fail; otherwise remove the stale lockfile.  Then
create a lockfile with the current PID.  This helper is defined in the
sources but `main` never calls it. -/
def check_running_instance (env : LockEnv) : CheckInstanceResult :=
  if env.lockfile_exists then
    match env.recorded_pid with
    | none => { ok := false, removed_stale := false, created := false }
    | some _ =>
      if env.pid_alive then
        { ok := false, removed_stale := false, created := false }
      else
        { ok := true, removed_stale := true, created := true }
  else
    { ok := true, removed_stale := false, created := true }

/-! ## Git worktree adapter (src/rust/src/git.rs) -/

/-- Git subcommands issued by the adapter, as trace entries. -/
inductive GitCmd where
  | revParseHead
  | revParseBranch
  | revParseRemote (r : String)
  | fetchCmd
  | statusPorcelain
  | stashSave
  | stashPop
  | pullCmd
  | resetHard (commit : String)
  | branchList
  | lsRemote
  | checkout
  | checkoutTrack
  deriving DecidableEq, Repr

/-- Worktree state: a clean checkout of a commit, or a worktree left in
a conflicted (partially merged) state on top of a commit. -/
inductive Wt where
  | clean (commit : String)
  | conflicted (commit : String)
  deriving DecidableEq, Repr

/-- Outcomes of the external git subprocesses for one adapter call.
`head` is what `rev-parse HEAD` reports before any pull,
`remote_head` what `rev-parse origin/<branch>` reports after the fetch,
and `wt_after_failed_pull` the worktree state a failed `git pull`
leaves behind (for a merge conflict: a conflicted worktree on the old
commit). -/
structure GitEnv where
  head : String
  rev_head_ok : Bool
  current_branch : String
  rev_branch_ok : Bool
  fetch_ok : Bool
  remote_head : String
  rev_remote_ok : Bool
  has_local_changes : Bool
  status_ok : Bool
  pull_ok : Bool
  pull_err_msg : String
  wt_after_failed_pull : Wt
  reset_ok : Bool
  branch_exists_locally : Bool
  branch_local_ok : Bool
  checkout_ok : Bool
  branch_exists_remotely : Bool
  ls_remote_ok : Bool
  head_after_switch : String
  deriving DecidableEq, Repr

/-- Result of one adapter call: final worktree state, trace of git
subcommands issued, and the returned value (`Bool` is the
updates-pulled flag of `check_for_updates`; `update` always reports
`true` on success). -/
structure GitRunResult where
  wt : Wt
  trace : List GitCmd
  result : Except String Bool
  deriving Repr

/-- `GitRepo::switch_branch` from git.rs (lines 388-446), producing the
issued trace and the outcome.  Stash failures only warn (source lines
309-313, 327-331). -/
def switch_branch_run (env : GitEnv) : List GitCmd × Except String Unit :=
  let pre : List GitCmd :=
    [GitCmd.statusPorcelain] ++
      (if env.has_local_changes then [GitCmd.stashSave] else [])
  if ¬ env.status_ok then ([GitCmd.statusPorcelain], Except.error "Git status failed")
  else
    let pre := pre ++ [GitCmd.branchList]
    if ¬ env.branch_local_ok then (pre, Except.error "Git branch --list failed")
    else if env.branch_exists_locally then
      let pre := pre ++ [GitCmd.checkout]
      if ¬ env.checkout_ok then (pre, Except.error "Git checkout failed")
      else
        (pre ++ (if env.has_local_changes then [GitCmd.stashPop] else []),
          Except.ok ())
    else
      let pre := pre ++ [GitCmd.fetchCmd]
      if ¬ env.fetch_ok then (pre, Except.error "Git fetch failed")
      else
        let pre := pre ++ [GitCmd.lsRemote]
        if ¬ env.ls_remote_ok then (pre, Except.error "Git ls-remote failed")
        else if env.branch_exists_remotely then
          let pre := pre ++ [GitCmd.checkoutTrack]
          if ¬ env.checkout_ok then (pre, Except.error "Git checkout -b failed")
          else
            (pre ++ (if env.has_local_changes then [GitCmd.stashPop] else []),
              Except.ok ())
        else
          (pre, Except.error "Branch not found on remote")

/-- `GitRepo::update` from git.rs (lines 100-163): record the current
commit, switch branches if needed, fetch, compare heads, and pull with
a stash around local changes.  A pull failure whose message contains
`CONFLICT` or `Automatic merge failed` triggers `reset_hard` to the
pre-pull commit before the error is returned (lines 136-147). -/
def GitRepo.update_run (branch : String) (env : GitEnv) : GitRunResult :=
  let wt0 := Wt.clean env.head
  if ¬ env.rev_head_ok then
    { wt := wt0, trace := [GitCmd.revParseHead],
      result := Except.error "Git rev-parse failed" }
  else
    let previous := env.head
    let t0 : List GitCmd := [GitCmd.revParseHead, GitCmd.revParseBranch]
    if ¬ env.rev_branch_ok then
      { wt := wt0, trace := t0,
        result := Except.error "Git rev-parse for branch failed" }
    else
      let switch :=
        if env.current_branch ≠ branch then some (switch_branch_run env) else none
      match switch with
      | some (str, Except.error e) =>
        { wt := wt0, trace := t0 ++ str, result := Except.error e }
      | _ =>
        let t1 := t0 ++ (match switch with
          | some (str, _) => str
          | none => [])
        let wt1 := match switch with
          | some _ => Wt.clean env.head_after_switch
          | none => wt0
        let t2 := t1 ++ [GitCmd.fetchCmd]
        if ¬ env.fetch_ok then
          { wt := wt1, trace := t2, result := Except.error "Git fetch failed" }
        else
          let t3 := t2 ++ [GitCmd.revParseRemote ("origin/" ++ branch)]
          if ¬ env.rev_remote_ok then
            { wt := wt1, trace := t3,
              result := Except.error "Git rev-parse for origin failed" }
          else if env.remote_head ≠ previous then
            let t4 := t3 ++ [GitCmd.statusPorcelain]
            if ¬ env.status_ok then
              { wt := wt1, trace := t4, result := Except.error "Git status failed" }
            else
              let t5 := t4 ++
                (if env.has_local_changes then [GitCmd.stashSave] else [])
              let t6 := t5 ++ [GitCmd.pullCmd]
              if env.pull_ok then
                { wt := Wt.clean env.remote_head,
                  trace := t6 ++
                    (if env.has_local_changes then [GitCmd.stashPop] else []),
                  result := Except.ok true }
              else
                let e := "Git pull failed: " ++ env.pull_err_msg
                if contains_substr e "CONFLICT" ||
                    contains_substr e "Automatic merge failed" then
                  let t7 := t6 ++ [GitCmd.resetHard previous]
                  if env.reset_ok then
                    { wt := Wt.clean previous, trace := t7,
                      result := Except.error e }
                  else
                    { wt := env.wt_after_failed_pull, trace := t7,
                      result := Except.error "Git reset failed" }
                else
                  { wt := env.wt_after_failed_pull, trace := t6,
                    result := Except.error e }
          else
            { wt := wt1, trace := t3, result := Except.ok true }

/-- `GitRepo::check_for_updates` from git.rs (lines 166-190): record
the current commit, fetch, compare heads, pull when they differ.  The
pull error propagates directly through `?` - there is no stash, no
conflict detection and no hard reset on this path. -/
def GitRepo.check_for_updates_run (branch : String) (env : GitEnv) : GitRunResult :=
  let wt0 := Wt.clean env.head
  if ¬ env.rev_head_ok then
    { wt := wt0, trace := [GitCmd.revParseHead],
      result := Except.error "Git rev-parse failed" }
  else
    let t1 : List GitCmd := [GitCmd.revParseHead, GitCmd.fetchCmd]
    if ¬ env.fetch_ok then
      { wt := wt0, trace := t1, result := Except.error "Git fetch failed" }
    else
      let t2 := t1 ++ [GitCmd.revParseRemote ("origin/" ++ branch)]
      if ¬ env.rev_remote_ok then
        { wt := wt0, trace := t2,
          result := Except.error "Git rev-parse for origin failed" }
      else if env.head ≠ env.remote_head then
        let t3 := t2 ++ [GitCmd.pullCmd]
        if env.pull_ok then
          { wt := Wt.clean env.remote_head, trace := t3, result := Except.ok true }
        else
          { wt := env.wt_after_failed_pull, trace := t3,
            result := Except.error ("Git pull failed: " ++ env.pull_err_msg) }
      else
        { wt := wt0, trace := t2, result := Except.ok false }

/-! ## Per-service monitoring loop (src/rust/src/main.rs) -/

/-- Steps the update handlers perform, as trace entries.
`notifyHealth` is in the vocabulary because the specification mentions a
healthcheck notification; the translated handlers never emit it. -/
inductive NxAction where
  | validate
  | revert
  | fixPerms
  | restart
  | checkLogs
  | notifyHealth
  deriving DecidableEq, Repr

/-- Outcomes of the external steps of one update-handling cycle.
Failures of revert, permission fixing and log checking are logged but
do not influence control flow (main.rs lines 215-217, 228-230,
245-247), so only the validation and restart outcomes appear. -/
structure UpdateEnv where
  validation_ok : Bool
  restart_ok : Bool
  deriving DecidableEq, Repr

/-- `handle_nginx_update` from main.rs (lines 199-251): build the nginx
config (fails for non-nginx types), run the validation command if set
(on failure revert when effective auto_fix holds, then return an
error), fix permissions when configured, restart unless disabled (on
failure return an error), then check logs.  The returned flag is `true`
for `Ok`. -/
def handle_nginx_update (s : ServiceConfig) (g : GlobalSettings)
    (env : UpdateEnv) : List NxAction × Bool :=
  if s.service_type ≠ ServiceType.nginx then ([], false)
  else
    let valActs : List NxAction :=
      if s.validation_command.isSome then [NxAction.validate] else []
    if s.validation_command.isSome && !env.validation_ok then
      (valActs ++
        (if s.effective_auto_fix g.auto_fix then [NxAction.revert] else []),
        false)
    else
      let permsActs : List NxAction :=
        if s.effective_fix_permissions g.fix_permissions && s.permissions.isSome
        then [NxAction.fixPerms] else []
      if restart_enabled s g && !env.restart_ok then
        (valActs ++ permsActs ++ [NxAction.restart], false)
      else
        let restartActs : List NxAction :=
          if restart_enabled s g then [NxAction.restart] else []
        let logActs : List NxAction :=
          if s.effective_monitor_logs g.monitor_logs then [NxAction.checkLogs]
          else []
        (valActs ++ permsActs ++ restartActs ++ logActs, true)

/-- `handle_apache_update` from main.rs (lines 254-295): identical
shape to the nginx handler except that there is no nginx-config guard
and no log-check step. -/
def handle_apache_update (s : ServiceConfig) (g : GlobalSettings)
    (env : UpdateEnv) : List NxAction × Bool :=
  let valActs : List NxAction :=
    if s.validation_command.isSome then [NxAction.validate] else []
  if s.validation_command.isSome && !env.validation_ok then
    (valActs ++
      (if s.effective_auto_fix g.auto_fix then [NxAction.revert] else []),
      false)
  else
    let permsActs : List NxAction :=
      if s.effective_fix_permissions g.fix_permissions && s.permissions.isSome
      then [NxAction.fixPerms] else []
    if restart_enabled s g && !env.restart_ok then
      (valActs ++ permsActs ++ [NxAction.restart], false)
    else
      let restartActs : List NxAction :=
        if restart_enabled s g then [NxAction.restart] else []
      (valActs ++ permsActs ++ restartActs, true)

/-- `handle_generic_update` from main.rs (lines 298-339): same shape as
the apache handler. -/
def handle_generic_update (s : ServiceConfig) (g : GlobalSettings)
    (env : UpdateEnv) : List NxAction × Bool :=
  handle_apache_update s g env

/-- Outcome of `git_service::check_for_updates` as the loop body sees
it (main.rs lines 155-190). -/
inductive UpdCheck where
  | errored
  | noUpdate
  | updated
  deriving DecidableEq, Repr

/-- Fate of one iteration of the monitoring loop: either the loop
sleeps `watch_interval` and runs again, or `monitor_service` returns an
error and the task terminates. -/
inductive StepResult where
  | continues (acts : List NxAction)
  | exits (acts : List NxAction)
  deriving DecidableEq, Repr

/-- One iteration of the `loop` in `monitor_service` (main.rs lines
151-195).  A check error is only logged; no update runs a periodic log
check for nginx services; an update dispatches to the type-specific
handler, whose error is propagated by `?` and terminates the loop. -/
def monitor_step (s : ServiceConfig) (g : GlobalSettings)
    (check : UpdCheck) (env : UpdateEnv) : StepResult :=
  match check with
  | UpdCheck.errored => StepResult.continues []
  | UpdCheck.noUpdate =>
    if s.service_type = ServiceType.nginx &&
        s.effective_monitor_logs g.monitor_logs then
      StepResult.continues [NxAction.checkLogs]
    else
      StepResult.continues []
  | UpdCheck.updated =>
    let handled :=
      match s.service_type with
      | ServiceType.nginx => handle_nginx_update s g env
      | ServiceType.apache => handle_apache_update s g env
      | _ => handle_generic_update s g env
    if handled.2 then StepResult.continues handled.1
    else StepResult.exits handled.1

/-- Whether `monitor_service` aborts before entering its loop
(main.rs lines 139-145): `init_repository` failure makes the task
return an error. -/
def monitor_task_aborts_on_init (init_ok : Bool) : Bool :=
  !init_ok

/-! ## Supervisor (src/rust/src/main.rs, lines 87-107) -/

/-- Events the `tokio::select!` block of `main` reacts to. -/
inductive SupEvent where
  | shutdownSignal
  | taskExited (idx : Nat)
  deriving DecidableEq, Repr

/-- Supervisor reactions.  `sendShutdownAll` covers the explicit
`tx.send(())` of the task-exit branch together with `main` falling
through to cleanup and returning, which tears down the runtime and all
remaining tasks. -/
inductive SupAction where
  | logEvent
  | abortAll
  | sendShutdownAll
  | removeLockfile
  deriving DecidableEq, Repr

/-- The `tokio::select!` of `main` (lines 87-107) followed by the
cleanup (lines 109-114): a shutdown signal aborts all tasks; any task
completing triggers a shutdown of all the others (comment in source:
"If one task ended, trigger shutdown for all"). -/
def main_select_actions : SupEvent → List SupAction
  | SupEvent.shutdownSignal =>
    [SupAction.logEvent, SupAction.abortAll, SupAction.removeLockfile]
  | SupEvent.taskExited _ =>
    [SupAction.logEvent, SupAction.sendShutdownAll, SupAction.removeLockfile]

/-- Effect of one supervisor action on the set of running loops. -/
def apply_sup_action (running : List String) : SupAction → List String
  | SupAction.abortAll => []
  | SupAction.sendShutdownAll => []
  | _ => running

/-- The service loops still running after the supervisor processed one
event. -/
def surviving_loops (running : List String) (e : SupEvent) : List String :=
  (main_select_actions e).foldl apply_sup_action running

/-! ## Auxiliary definitions used by the theorems -/

/-- Whether an adapter call returned an error. -/
def GitRunResult.is_error (r : GitRunResult) : Bool :=
  match r.result with
  | Except.error _ => true
  | Except.ok _ => false

/-- Override semantics in the words of the specification: the effective
option is the per-service override when present, else the global
default. -/
def spec_effective_option {α : Type} (override : Option α) (dflt : α) : α :=
  match override with
  | some v => v
  | none => dflt

/-! ## Theorems for the claims -/

/-- Claim C5, counterexample: a service whose `disable_restart` field is
`false` under a global `disable_restart` of `true`.  Override semantics
would make the effective value the per-service `false` (restart
enabled), but the restart gate the loop uses (main.rs line 235) is the
conjunction of the negations, so restart is disabled. -/
theorem C5_disable_restart_cex :
    ({ ServiceConfig.default_nginx with disable_restart := false
       } : ServiceConfig).disable_restart = false ∧
    ({ GlobalSettings.default with disable_restart := true
       } : GlobalSettings).disable_restart = true ∧
    restart_enabled
      { ServiceConfig.default_nginx with disable_restart := false }
      { GlobalSettings.default with disable_restart := true } = false := by
  decide

/-- Claim C5 (amended): `auto_fix`, `monitor_logs` and `branch` follow
override semantics (service override when set, else global default);
`fix_permissions` takes the `fix` flag of the per-service permissions
block when that block is present, else the global default; but
`disable_restart` is not optional, and the loop performs the restart
exactly when both the service flag and the global flag are unset, i.e.
the effective disable value is their disjunction. -/
theorem C5_effective_options (s : ServiceConfig) (g : GlobalSettings) :
    s.effective_auto_fix g.auto_fix =
      spec_effective_option s.auto_fix g.auto_fix ∧
    s.effective_monitor_logs g.monitor_logs =
      spec_effective_option s.monitor_logs g.monitor_logs ∧
    s.effective_branch g.default_branch =
      spec_effective_option s.branch g.default_branch ∧
    s.effective_fix_permissions g.fix_permissions =
      spec_effective_option (s.permissions.map Permissions.fix)
        g.fix_permissions ∧
    restart_enabled s g = !(s.disable_restart || g.disable_restart) := by
  refine ⟨?_, ?_, ?_, ?_, ?_⟩
  · cases h : s.auto_fix <;>
      simp [ServiceConfig.effective_auto_fix, spec_effective_option, h]
  · cases h : s.monitor_logs <;>
      simp [ServiceConfig.effective_monitor_logs, spec_effective_option, h]
  · cases h : s.branch <;>
      simp [ServiceConfig.effective_branch, spec_effective_option, h]
  · cases h : s.permissions <;>
      simp [ServiceConfig.effective_fix_permissions, spec_effective_option, h]
  · cases hs : s.disable_restart <;> cases hg : g.disable_restart <;>
      simp [restart_enabled, hs, hg]

/-- Claim C9: every configuration successfully produced by
`Config::load` (JSON branch after normalization, or the legacy
environment branch) has a non-empty services list, and a JSON document
with an empty services array is returned with exactly the built-in
default nginx service appended. -/
theorem C9_services_nonempty (src : LoadSource) :
    (Config.load_result src).services ≠ [] ∧
    (∀ c : Config, c.services = [] →
      (Config.load_from_json_post c).services =
        [ServiceConfig.default_nginx]) := by
  constructor
  · cases src with
    | json parsed =>
      by_cases h : parsed.services = []
      · simp [Config.load_result, Config.load_from_json_post, h]
      · simp [Config.load_result, Config.load_from_json_post,
          List.isEmpty_iff, h]
    | legacy env => simp [Config.load_result, Config.from_legacy]
  · intro c hc
    simp [Config.load_from_json_post, hc]

/-- Witness for C9 at concrete inputs: a parsed document with an empty
services array and the legacy fallback. -/
theorem C9_services_nonempty_witness :
    (Config.load_result
      (LoadSource.json
        { services := [], global_settings := GlobalSettings.default })
        ).services ≠ [] ∧
    (Config.load_from_json_post
      { services := [], global_settings := GlobalSettings.default }
        ).services = [ServiceConfig.default_nginx] := by
  refine ⟨(C9_services_nonempty
    (LoadSource.json
      { services := [], global_settings := GlobalSettings.default })).1, ?_⟩
  exact (C9_services_nonempty
    (LoadSource.json
      { services := [], global_settings := GlobalSettings.default })).2
    { services := [], global_settings := GlobalSettings.default } rfl

/-- Claim C10: for a service with a configured `restart_command`,
`restart_service` either skips (restart disabled) or runs exactly the
custom command via `sh -c` under the 60-second default timeout; the
selected plan is independent of the container status, no container
status query happens on this path, and a container-missing failure is
impossible.  Both the legacy-environment conversion and the built-in
default nginx service set a `restart_command`. -/
theorem C10_custom_restart (s : ServiceConfig) (g : GlobalSettings)
    (status : ContainerStatus) (cmd : String)
    (h : s.restart_command = some cmd) :
    restart_service_plan s g status =
      (if s.disable_restart || g.disable_restart then RestartPlan.skip
       else RestartPlan.custom cmd) ∧
    (∀ status2, restart_service_plan s g status =
      restart_service_plan s g status2) ∧
    restart_service_queries_status s g = false ∧
    (∀ c, restart_service_plan s g status ≠ RestartPlan.containerMissing c) ∧
    custom_command_invocation cmd = ("sh", ["-c", cmd], 60) ∧
    (∀ l : LegacyConfig,
      (Config.from_legacy l).services.all
        (fun sv => sv.restart_command.isSome) = true) ∧
    ServiceConfig.default_nginx.restart_command.isSome = true := by
  have hplan : ∀ st, restart_service_plan s g st =
      (if s.disable_restart || g.disable_restart then RestartPlan.skip
       else RestartPlan.custom cmd) := by
    intro st
    by_cases hd : (s.disable_restart || g.disable_restart) = true
    · simp [restart_service_plan, hd]
    · cases ht : s.service_type <;>
        simp [restart_service_plan, restart_web_service_plan,
          restart_generic_service_plan, hd, ht, h]
  refine ⟨hplan status, fun status2 => (hplan status).trans (hplan status2).symm,
    ?_, ?_, rfl, ?_, rfl⟩
  · by_cases hd : (s.disable_restart || g.disable_restart) = true
    · simp [restart_service_queries_status, hd]
    · cases ht : s.service_type <;>
        simp [restart_service_queries_status, hd, ht, h]
  · intro c
    rw [hplan status]
    by_cases hd : (s.disable_restart || g.disable_restart) = true <;>
      simp [hd]
  · intro l
    simp [Config.from_legacy]

/-- Witness for C10 at the built-in default nginx service. -/
theorem C10_custom_restart_witness :
    restart_service_plan ServiceConfig.default_nginx GlobalSettings.default
      ContainerStatus.notExists =
      RestartPlan.custom "docker restart nginx_app" ∧
    restart_service_queries_status ServiceConfig.default_nginx
      GlobalSettings.default = false := by
  have h := C10_custom_restart ServiceConfig.default_nginx
    GlobalSettings.default ContainerStatus.notExists
    "docker restart nginx_app" rfl
  exact ⟨by rw [h.1]; rfl, h.2.2.1⟩

/-- Claim C6, counterexample: the parser the monitoring loop uses for
`startup_grace_period` (the `parse_duration` local to main.rs) rejects
the bare integer "30" instead of treating it as seconds, and an
unparseable grace period is silently replaced by a 30-second default
(main.rs lines 131-132) instead of being a fatal configuration
error. -/
theorem C6_duration_cex :
    parse_duration_main "30" = none ∧
    parse_duration_main "abc" = none ∧
    grace_period_secs
      { GlobalSettings.default with startup_grace_period := "abc" } = 30 := by
  decide

/-- Claim C6 (amended): the parser used for the configured grace period
accepts `<uint>` with a mandatory unit suffix `s`, `m`, `h` or `d` and
rejects bare integers as well as "30x", "" and "abc"; the separate
utils.rs parser does accept bare integers as seconds but is not the one
the loop calls; and a `startup_grace_period` that fails to parse is
replaced by a 30-second default rather than aborting startup. -/
theorem C6_duration_amended :
    parse_duration_main "30s" = some 30 ∧
    parse_duration_main "5m" = some 300 ∧
    parse_duration_main "2h" = some 7200 ∧
    parse_duration_main "1d" = some 86400 ∧
    parse_duration_main "30" = none ∧
    parse_duration_main "30x" = none ∧
    parse_duration_main "" = none ∧
    parse_duration_main "abc" = none ∧
    parse_duration_utils "30" = some 30 ∧
    parse_duration_utils "30s" = some 30 ∧
    (∀ g : GlobalSettings,
      parse_duration_main g.startup_grace_period = none →
        grace_period_secs g = 30) ∧
    (∀ (g : GlobalSettings) (n : Nat),
      parse_duration_main g.startup_grace_period = some n →
        grace_period_secs g = n) := by
  refine ⟨by decide, by decide, by decide, by decide, by decide, by decide,
    by decide, by decide, by decide, by decide, ?_, ?_⟩
  · intro g hg
    simp [grace_period_secs, hg]
  · intro g n hg
    simp [grace_period_secs, hg]

/-- Witness for the conditional parts of the amended C6: a concrete
global settings record whose grace period does not parse falls back to
30 seconds, and one that parses to two minutes is used as parsed. -/
theorem C6_duration_amended_witness :
    grace_period_secs
      { GlobalSettings.default with startup_grace_period := "oops" } = 30 ∧
    grace_period_secs
      { GlobalSettings.default with startup_grace_period := "2m" } = 120 := by
  refine ⟨C6_duration_amended.2.2.2.2.2.2.2.2.2.2.1
    { GlobalSettings.default with startup_grace_period := "oops" }
    (by decide), ?_⟩
  exact C6_duration_amended.2.2.2.2.2.2.2.2.2.2.2
    { GlobalSettings.default with startup_grace_period := "2m" } 120
    (by decide)

/-- Claim C7, counterexample: the utils.rs notifier (also named
`notify_healthcheck`) does not behave as claimed at the concrete call
`notify("http://h", "m", true)`: it issues a GET with the message in
the query string and a 5-second timeout instead of a POST of the
message body to `url ++ "/fail"` with a 10-second timeout, and on the
empty URL it fails URL validation instead of succeeding as a no-op. -/
theorem C7_notify_cex :
    utils_notify_healthcheck "http://h" "m" true =
      NotifyOutcome.request
        { method := "GET", url := "http://h?status=fail&msg=m",
          body := none, timeout_secs := 5 } ∧
    spec_notify "http://h" "m" true =
      NotifyOutcome.request
        { method := "POST", url := "http://h/fail",
          body := some "m", timeout_secs := 10 } ∧
    utils_notify_healthcheck "http://h" "m" true ≠
      spec_notify "http://h" "m" true ∧
    utils_notify_healthcheck "" "m" false = NotifyOutcome.invalidUrl ∧
    spec_notify "" "m" false = NotifyOutcome.noop := by
  decide

/-- Claim C7 (amended): the logger.rs notifier implements exactly the
claimed behavior - empty URL is a successful no-op, otherwise POST the
message as the request body to the URL (with `/fail` appended on
error) under a 10-second timeout; the same-named utils.rs notifier
deviates from it as the counterexample shows. -/
theorem C7_notify_amended (url message : String) (is_error : Bool) :
    logger_notify_healthcheck url message is_error =
      spec_notify url message is_error := by
  by_cases h : url = "" <;>
    simp [logger_notify_healthcheck, spec_notify, h]

/-- Claim C8, counterexample: with an existing lockfile recording a
live PID, `main` still proceeds (it unconditionally overwrites the
lockfile, main.rs lines 43-54) and forces no exit code, although the
unused helper `check_running_instance` would have refused. -/
theorem C8_lockfile_cex :
    main_startup_lock
      { lockfile_exists := true, recorded_pid := some 42,
        pid_alive := true, write_ok := true } =
      { proceeded := true, exit_code := none, warned := false,
        lock_written := true } ∧
    (main_startup_lock
      { lockfile_exists := true, recorded_pid := some 42,
        pid_alive := true, write_ok := true }).exit_code ≠ some 2 ∧
    (check_running_instance
      { lockfile_exists := true, recorded_pid := some 42,
        pid_alive := true, write_ok := true }).ok = false := by
  decide

/-- Claim C8 (amended): at startup `main` performs no lockfile
contention check at all - it unconditionally overwrites the lockfile
with its PID, warns (only) when the write fails, always proceeds, and
never exits with code 2.  The described refuse-if-live /
remove-if-stale behavior exists in `check_running_instance` (utils.rs),
which `main` never calls. -/
theorem C8_lockfile_amended (env : LockEnv) :
    (main_startup_lock env).proceeded = true ∧
    (main_startup_lock env).exit_code = none ∧
    (main_startup_lock env).warned = !env.write_ok ∧
    (env.lockfile_exists = true → env.recorded_pid.isSome = true →
      env.pid_alive = true → (check_running_instance env).ok = false) ∧
    (env.lockfile_exists = true → env.recorded_pid.isSome = true →
      env.pid_alive = false →
      check_running_instance env =
        { ok := true, removed_stale := true, created := true }) := by
  refine ⟨rfl, rfl, rfl, ?_, ?_⟩
  · intro he hp ha
    cases hrec : env.recorded_pid with
    | none => rw [hrec] at hp; simp at hp
    | some p => simp [check_running_instance, he, ha, hrec]
  · intro he hp ha
    cases hrec : env.recorded_pid with
    | none => rw [hrec] at hp; simp at hp
    | some p => simp [check_running_instance, he, ha, hrec]

/-- Witness for C8 at concrete environments: a live recorded PID makes
the unused helper refuse; a stale one makes it remove the lockfile and
recreate it. -/
theorem C8_lockfile_amended_witness :
    (check_running_instance
      { lockfile_exists := true, recorded_pid := some 42,
        pid_alive := true, write_ok := true }).ok = false ∧
    check_running_instance
      { lockfile_exists := true, recorded_pid := some 42,
        pid_alive := false, write_ok := true } =
      { ok := true, removed_stale := true, created := true } := by
  refine ⟨(C8_lockfile_amended
    { lockfile_exists := true, recorded_pid := some 42,
      pid_alive := true, write_ok := true }).2.2.2.1 rfl rfl rfl, ?_⟩
  exact (C8_lockfile_amended
    { lockfile_exists := true, recorded_pid := some 42,
      pid_alive := false, write_ok := true }).2.2.2.2 rfl rfl rfl

/-- Claim C1, counterexample: with two services X and Y, service X's
task terminating (as after a clone failure, which makes
`monitor_service` return an error) makes the supervisor's select branch
send the shutdown signal, after which no loop - in particular not Y's -
is still running.  The supervisor does cascade-shutdown. -/
theorem C1_supervisor_cex :
    monitor_task_aborts_on_init false = true ∧
    surviving_loops ["X", "Y"] (SupEvent.taskExited 0) = [] ∧
    "Y" ∉ surviving_loops ["X", "Y"] (SupEvent.taskExited 0) := by
  decide

/-- Claim C1 (amended): when any single service task exits (normally
or with an error such as a clone failure), the supervisor branch for
task completion sends the shutdown signal and `main` proceeds to
cleanup, so every other loop stops as well; service loops are not
isolated from one another's termination. -/
theorem C1_supervisor_cascade (running : List String) (i : Nat) :
    surviving_loops running (SupEvent.taskExited i) = [] ∧
    SupAction.sendShutdownAll ∈ main_select_actions (SupEvent.taskExited i) := by
  exact ⟨rfl, by simp [main_select_actions]⟩

/-- Claim C2, counterexample: an update cycle of the default nginx
service (effective auto_fix false) whose validation fails does not
return the loop to Idle for a retry at the next tick - the handler
error is propagated by the `?` in `monitor_service` and the loop
exits. -/
theorem C2_validation_cex :
    monitor_step ServiceConfig.default_nginx GlobalSettings.default
      UpdCheck.updated { validation_ok := false, restart_ok := true } =
      StepResult.exits [NxAction.validate] := by
  decide

/-- Claim C2 (amended): when the validation step of a cycle fails, the
handler attempts `revert_last` exactly when effective auto_fix holds
and never reaches the restart step, but it then returns an error, and
`monitor_service` propagates that error and terminates the service's
loop instead of idling until the next watch_interval tick. -/
theorem C2_validation_failure (s : ServiceConfig) (g : GlobalSettings)
    (env : UpdateEnv)
    (hty : s.service_type = ServiceType.nginx)
    (hvc : s.validation_command.isSome = true)
    (hvf : env.validation_ok = false) :
    handle_nginx_update s g env =
      ([NxAction.validate] ++
        (if s.effective_auto_fix g.auto_fix then [NxAction.revert] else []),
        false) ∧
    NxAction.restart ∉
      ([NxAction.validate] ++
        (if s.effective_auto_fix g.auto_fix then [NxAction.revert] else [])) ∧
    monitor_step s g UpdCheck.updated env =
      StepResult.exits
        ([NxAction.validate] ++
          (if s.effective_auto_fix g.auto_fix then [NxAction.revert]
           else [])) := by
  have h1 : handle_nginx_update s g env =
      ([NxAction.validate] ++
        (if s.effective_auto_fix g.auto_fix then [NxAction.revert] else []),
        false) := by
    simp [handle_nginx_update, hty, hvc, hvf]
  refine ⟨h1, ?_, ?_⟩
  · by_cases haf : s.effective_auto_fix g.auto_fix <;> simp [haf]
  · simp [monitor_step, hty, h1]

/-- Witness for C2 at a concrete service with auto_fix enabled: the
revert is attempted and the loop still exits. -/
theorem C2_validation_failure_witness :
    monitor_step
      { ServiceConfig.default_nginx with auto_fix := some true }
      GlobalSettings.default UpdCheck.updated
      { validation_ok := false, restart_ok := true } =
      StepResult.exits [NxAction.validate, NxAction.revert] := by
  have h := C2_validation_failure
    { ServiceConfig.default_nginx with auto_fix := some true }
    GlobalSettings.default { validation_ok := false, restart_ok := true }
    rfl rfl rfl
  rw [h.2.2]
  rfl

/-- Claim C3, counterexample: a cycle of the default nginx service
whose restart fails does not enter a Recovering phase - no
`revert_last` and no healthcheck notification happen, and instead of
returning to Idle for the next tick the loop exits. -/
theorem C3_restart_cex :
    monitor_step ServiceConfig.default_nginx GlobalSettings.default
      UpdCheck.updated { validation_ok := true, restart_ok := false } =
      StepResult.exits
        [NxAction.validate, NxAction.fixPerms, NxAction.restart] ∧
    NxAction.revert ∉
      [NxAction.validate, NxAction.fixPerms, NxAction.restart] ∧
    NxAction.notifyHealth ∉
      [NxAction.validate, NxAction.fixPerms, NxAction.restart] := by
  decide

/-- Claim C3 (amended): when the restart step of a cycle fails, the
handler returns an error without attempting `revert_last` and without
notifying the healthcheck `/fail` endpoint, and `monitor_service`
propagates the error and terminates the loop rather than re-attempting
at the next tick. -/
theorem C3_restart_failure (s : ServiceConfig) (g : GlobalSettings)
    (env : UpdateEnv)
    (hty : s.service_type = ServiceType.nginx)
    (hv : env.validation_ok = true)
    (hen : restart_enabled s g = true)
    (hrf : env.restart_ok = false) :
    handle_nginx_update s g env =
      ((if s.validation_command.isSome then [NxAction.validate] else []) ++
        (if s.effective_fix_permissions g.fix_permissions &&
            s.permissions.isSome then [NxAction.fixPerms] else []) ++
        [NxAction.restart], false) ∧
    NxAction.revert ∉ (handle_nginx_update s g env).1 ∧
    NxAction.notifyHealth ∉ (handle_nginx_update s g env).1 ∧
    monitor_step s g UpdCheck.updated env =
      StepResult.exits (handle_nginx_update s g env).1 := by
  have h1 : handle_nginx_update s g env =
      ((if s.validation_command.isSome then [NxAction.validate] else []) ++
        (if s.effective_fix_permissions g.fix_permissions &&
            s.permissions.isSome then [NxAction.fixPerms] else []) ++
        [NxAction.restart], false) := by
    simp [handle_nginx_update, hty, hv, hen, hrf]
  refine ⟨h1, ?_, ?_, ?_⟩
  · rw [h1]
    by_cases h2 : s.validation_command.isSome <;>
      by_cases h3 : (s.effective_fix_permissions g.fix_permissions &&
        s.permissions.isSome) = true <;>
      simp [h2, h3]
  · rw [h1]
    by_cases h2 : s.validation_command.isSome <;>
      by_cases h3 : (s.effective_fix_permissions g.fix_permissions &&
        s.permissions.isSome) = true <;>
      simp [h2, h3]
  · simp [monitor_step, hty, h1]

/-- Witness for C3 at the default nginx service: validation passes,
the restart fails, and the handler ends in error with the restart as
its last action. -/
theorem C3_restart_failure_witness :
    handle_nginx_update ServiceConfig.default_nginx GlobalSettings.default
      { validation_ok := true, restart_ok := false } =
      ([NxAction.validate, NxAction.fixPerms, NxAction.restart], false) := by
  have h := C3_restart_failure ServiceConfig.default_nginx
    GlobalSettings.default { validation_ok := true, restart_ok := false }
    rfl rfl rfl rfl
  rw [h.1]
  rfl

/-- A concrete git environment for the merge-conflict scenario: local
head `A`, remote head `B`, already on the tracked branch, no local
changes, and the pull fails with a conflict message, leaving the
worktree in a conflicted state on `A`. -/
def conflict_env : GitEnv :=
  { head := "A"
    rev_head_ok := true
    current_branch := "main"
    rev_branch_ok := true
    fetch_ok := true
    remote_head := "B"
    rev_remote_ok := true
    has_local_changes := false
    status_ok := true
    pull_ok := false
    pull_err_msg := "CONFLICT (content): Merge conflict in nginx.conf"
    wt_after_failed_pull := Wt.conflicted "A"
    reset_ok := true
    branch_exists_locally := true
    branch_local_ok := true
    checkout_ok := true
    branch_exists_remotely := true
    ls_remote_ok := true
    head_after_switch := "A" }

/-- Claim C4, counterexample: on the per-tick update-checking path
(`GitRepo::check_for_updates`), a pull failing with a `CONFLICT`
message is returned as-is - the trace contains no hard reset and the
worktree is left in the conflicted state, not restored to the pre-pull
head. -/
theorem C4_conflict_cex :
    contains_substr ("Git pull failed: " ++ conflict_env.pull_err_msg)
      "CONFLICT" = true ∧
    (GitRepo.check_for_updates_run "main" conflict_env).trace =
      [GitCmd.revParseHead, GitCmd.fetchCmd,
        GitCmd.revParseRemote "origin/main", GitCmd.pullCmd] ∧
    GitCmd.resetHard "A" ∉
      (GitRepo.check_for_updates_run "main" conflict_env).trace ∧
    (GitRepo.check_for_updates_run "main" conflict_env).wt =
      Wt.conflicted "A" ∧
    (GitRepo.check_for_updates_run "main" conflict_env).wt ≠ Wt.clean "A" ∧
    (GitRepo.check_for_updates_run "main" conflict_env).is_error = true := by
  decide

/-- Claim C4 (amended): the hard reset to the pre-pull commit on a
conflicting pull happens only in `GitRepo::update` (the ensure/init
path), where the failed cycle indeed ends with a clean worktree on the
pre-pull head; `GitRepo::check_for_updates`, the function the
monitoring loop calls every tick, propagates the pull error without
any reset, leaving the worktree as the failed pull left it. -/
theorem C4_conflict_reset_only_in_update (branch : String) (env : GitEnv)
    (hbr : env.current_branch = branch)
    (hh : env.rev_head_ok = true)
    (hb : env.rev_branch_ok = true)
    (hf : env.fetch_ok = true)
    (hr : env.rev_remote_ok = true)
    (hne : env.remote_head ≠ env.head)
    (hst : env.status_ok = true)
    (hp : env.pull_ok = false)
    (hc : (contains_substr ("Git pull failed: " ++ env.pull_err_msg)
        "CONFLICT" ||
      contains_substr ("Git pull failed: " ++ env.pull_err_msg)
        "Automatic merge failed") = true)
    (hrs : env.reset_ok = true) :
    (GitRepo.update_run branch env).wt = Wt.clean env.head ∧
    GitCmd.resetHard env.head ∈ (GitRepo.update_run branch env).trace ∧
    (GitRepo.update_run branch env).is_error = true ∧
    GitCmd.resetHard env.head ∉
      (GitRepo.check_for_updates_run branch env).trace ∧
    (GitRepo.check_for_updates_run branch env).wt =
      env.wt_after_failed_pull ∧
    (GitRepo.check_for_updates_run branch env).is_error = true := by
  have hbr2 : ¬ (env.current_branch ≠ branch) := by simp [hbr]
  have hne2 : env.head ≠ env.remote_head := fun h => hne h.symm
  refine ⟨?_, ?_, ?_, ?_, ?_, ?_⟩
  · simp [GitRepo.update_run, hh, hb, hbr2, hf, hr, hst, hp, hc, hrs, hne]
  · simp [GitRepo.update_run, hh, hb, hbr2, hf, hr, hst, hp, hc, hrs, hne]
  · simp [GitRepo.update_run, GitRunResult.is_error, hh, hb, hbr2, hf, hr,
      hst, hp, hc, hrs, hne]
  · simp [GitRepo.check_for_updates_run, hh, hf, hr, hp, hne2]
  · simp [GitRepo.check_for_updates_run, hh, hf, hr, hp, hne2]
  · simp [GitRepo.check_for_updates_run, GitRunResult.is_error, hh, hf, hr,
      hp, hne2]

/-- Witness for C4 at the concrete conflict environment: `update`
resets to the pre-pull head `A` while `check_for_updates` never issues
the reset. -/
theorem C4_conflict_witness :
    (GitRepo.update_run "main" conflict_env).wt = Wt.clean "A" ∧
    GitCmd.resetHard "A" ∈ (GitRepo.update_run "main" conflict_env).trace ∧
    GitCmd.resetHard "A" ∉
      (GitRepo.check_for_updates_run "main" conflict_env).trace := by
  have h := C4_conflict_reset_only_in_update "main" conflict_env
    rfl rfl rfl rfl rfl (by decide) rfl rfl (by decide) rfl
  exact ⟨h.1, h.2.1, h.2.2.2.1⟩

end Watcher
